import Mathlib

/-!
Verification of the shard split donor subsystem (MongoDB serverless shard
split). The repository ships the unit tests of the subsystem
(shard_split_donor_service_test.cpp); the implementation itself
(shard split donor service, recipient acceptance waiter and predicate,
operation registry) is not part of the sources, so the behavioural
definitions below are modelled from the specification document and each
carries a doc comment saying so.
-/

namespace ShardSplit

/-- The donor state machine phases, as enumerated in the test file
(operator<< over `mongo::ShardSplitDonorStateEnum`). -/
inductive ShardSplitDonorStateEnum
  | kUninitialized
  | kDataSync
  | kBlocking
  | kCommitted
  | kAborted
deriving DecidableEq, Repr

/-- The error codes the subsystem surfaces (spec section 7 taxonomy, plus
the code used by the registry when configurations conflict). -/
inductive ErrorCode
  | TenantMigrationAborted
  | ExceededTimeLimit
  | CallbackCanceled
  | ShutdownInProgress
  | InterruptedDueToReplStateChange
  | ConflictingOperationInProgress
deriving DecidableEq, Repr

/-- A peer description in a membership snapshot: a host address together
with the replica-set (group) name that peer reports, as built by
`sdam::ServerDescriptionBuilder` in the tests. -/
structure ServerDescription where
  host : String
  setName : String
deriving DecidableEq, Repr

/-- Modelled from the spec: the Recipient Acceptance Predicate
(section 4.4). Given the hosts carrying the recipient tag and the expected
recipient set name, it holds of a membership snapshot iff every tagged
host is present in the snapshot and reports membership in the group named
`recipientSetName`. -/
def recipientAcceptSplitPredicate (taggedHosts : List String)
    (recipientSetName : String) (servers : List ServerDescription) : Bool :=
  taggedHosts.all fun h =>
    servers.any fun s => s.host == h && s.setName == recipientSetName

/-- Events observed by the Recipient Acceptance Waiter: a topology change
carrying the new membership snapshot, shutdown of the underlying executor,
and the firing of the cancellation token. -/
inductive WaiterEvent
  | topologyChanged (servers : List ServerDescription)
  | executorShutdown
  | cancel
deriving DecidableEq, Repr

instance {ε α : Type} [DecidableEq ε] [DecidableEq α] : DecidableEq (Except ε α) := fun a b =>
  match a, b with
  | .ok x, .ok y =>
      if h : x = y then .isTrue (by rw [h]) else .isFalse (by simp [h])
  | .error x, .error y =>
      if h : x = y then .isTrue (by rw [h]) else .isFalse (by simp [h])
  | .ok _, .error _ => .isFalse (by simp)
  | .error _, .ok _ => .isFalse (by simp)

/-- The state of one recipient-acceptance wait: whether its future has
resolved (`Except.ok ()` on acceptance, `Except.error c` otherwise),
whether the underlying executor has been shut down, and whether the
subscription to the membership monitor is still live. -/
structure WaiterState where
  resolved : Option (Except ErrorCode Unit)
  shutdown : Bool
  subscribed : Bool
deriving DecidableEq, Repr

/-- The waiter right after `makeRecipientAcceptSplitFuture` returns:
pending, executor alive, subscribed to the monitor. -/
def initialWaiterState : WaiterState :=
  { resolved := none, shutdown := false, subscribed := true }

/-- Modelled from the spec: one step of the Recipient Acceptance Waiter
(section 4.3, `makeRecipientAcceptSplitFuture`), with the resolution
timing after executor shutdown refined by the `ExecutorCanceled` test:
a topology event resolves the future on the first snapshot satisfying the
predicate while the executor is alive; shutting the executor down delivers
no resolution by itself; the cancellation token resolves a pending wait
with `CallbackCanceled`, or with `ShutdownInProgress` when the executor
was already shut down. Resolution happens at most once. -/
def waiterStep (taggedHosts : List String) (recipientSetName : String)
    (w : WaiterState) (e : WaiterEvent) : WaiterState :=
  if w.resolved.isSome then w
  else
    match e with
    | .topologyChanged servers =>
        if w.shutdown = false ∧
            recipientAcceptSplitPredicate taggedHosts recipientSetName servers = true then
          { w with resolved := some (.ok ()), subscribed := false }
        else w
    | .executorShutdown => { w with shutdown := true }
    | .cancel =>
        if w.shutdown then
          { w with resolved := some (.error .ShutdownInProgress), subscribed := false }
        else
          { w with resolved := some (.error .CallbackCanceled), subscribed := false }

/-- Run the Recipient Acceptance Waiter over a sequence of events. -/
def runWaiter (taggedHosts : List String) (recipientSetName : String)
    (es : List WaiterEvent) : WaiterState :=
  es.foldl (waiterStep taggedHosts recipientSetName) initialWaiterState

/-- The durable Split Operation Record (spec section 3), with the field
names of `ShardSplitDonorDocument` used by the tests. -/
structure ShardSplitDonorDocument where
  id : Nat
  tenantIds : List String
  recipientTagName : String
  recipientSetName : String
  state : ShardSplitDonorStateEnum
deriving DecidableEq, Repr

/-- A valid configuration: a nonempty tenant set and nonempty recipient
tag and set names. -/
def validStateDocument (doc : ShardSplitDonorDocument) : Prop :=
  doc.tenantIds ≠ [] ∧ doc.recipientTagName ≠ "" ∧ doc.recipientSetName ≠ ""

instance (doc : ShardSplitDonorDocument) : Decidable (validStateDocument doc) := by
  unfold validStateDocument; infer_instance

/-- The value carried by a resolved completion future: the terminal state
together with the optional abort reason. -/
structure DonorResult where
  state : ShardSplitDonorStateEnum
  abortReason : Option ErrorCode
deriving DecidableEq, Repr

/-- The in-memory Donor State Machine: current phase, the state last
persisted to the durable record, the abort reason, the Write-Blocking Gate
status and how many times the gate has been disabled, the completion
future (`none` while pending; `Except.error` for a non-terminal
interruption such as leadership loss), and the list of phases entered. -/
structure DonorMachine where
  memState : ShardSplitDonorStateEnum
  persistedState : ShardSplitDonorStateEnum
  abortReason : Option ErrorCode
  gateEnabled : Bool
  gateDisableCount : Nat
  completion : Option (Except ErrorCode DonorResult)
  visited : List ShardSplitDonorStateEnum
deriving DecidableEq, Repr

/-- Modelled from the spec: constructing (or resuming) a Donor State
Machine from a Split Operation Record (sections 4.1, 4.2). A fresh
`Uninitialized` record immediately persists and enters `DataSync`; a
record already `Aborted` completes immediately with
`TenantMigrationAborted` without entering any other phase; a record
already `Committed` completes immediately; `DataSync`/`Blocking` records
resume in place (the gate is active iff the state is `Blocking`). -/
def startMachine (doc : ShardSplitDonorDocument) : DonorMachine :=
  match doc.state with
  | .kUninitialized =>
      { memState := .kDataSync, persistedState := .kDataSync, abortReason := none,
        gateEnabled := false, gateDisableCount := 0, completion := none,
        visited := [.kUninitialized, .kDataSync] }
  | .kDataSync =>
      { memState := .kDataSync, persistedState := .kDataSync, abortReason := none,
        gateEnabled := false, gateDisableCount := 0, completion := none,
        visited := [.kDataSync] }
  | .kBlocking =>
      { memState := .kBlocking, persistedState := .kBlocking, abortReason := none,
        gateEnabled := true, gateDisableCount := 0, completion := none,
        visited := [.kBlocking] }
  | .kCommitted =>
      { memState := .kCommitted, persistedState := .kCommitted, abortReason := none,
        gateEnabled := false, gateDisableCount := 0,
        completion := some (.ok { state := .kCommitted, abortReason := none }),
        visited := [.kCommitted] }
  | .kAborted =>
      { memState := .kAborted, persistedState := .kAborted,
        abortReason := some .TenantMigrationAborted,
        gateEnabled := false, gateDisableCount := 0,
        completion := some (.ok { state := .kAborted,
                                  abortReason := some .TenantMigrationAborted }),
        visited := [.kAborted] }

/-- External signals the Donor State Machine run loop races at its
asynchronous wait points (spec section 4.2): completion of the black-box
data-synchronization phase, a membership change event carrying the new
snapshot, expiry of the configured timeout deadline, an explicit
`tryAbort()` request, and loss of leadership (step-down). -/
inductive DonorEvent
  | dataSyncComplete
  | membershipChanged (servers : List ServerDescription)
  | timeout
  | tryAbort
  | stepDown
deriving DecidableEq, Repr

/-- Modelled from the spec: the transition to `Aborted` from a non-terminal
state (section 4.2 rule 4): disable the Write-Blocking Gate if it was
enabled, persist `Aborted` with the triggering cause as `abortReason`, and
resolve the completion future. -/
def abortTransition (m : DonorMachine) (reason : ErrorCode) : DonorMachine :=
  { m with memState := .kAborted, persistedState := .kAborted,
           abortReason := some reason,
           gateEnabled := false,
           gateDisableCount := m.gateDisableCount + (if m.gateEnabled then 1 else 0),
           completion := some (.ok { state := .kAborted, abortReason := some reason }),
           visited := m.visited ++ [.kAborted] }

/-- Modelled from the spec: one step of the Donor State Machine run loop
(section 4.2). A machine whose completion future has resolved ignores all
further signals (single resolution; an already-resolved future is not
retroactively cancelled). Otherwise: data-sync success moves `DataSync`
to `Blocking` and enables the gate; a membership event whose snapshot
satisfies the Recipient Acceptance Predicate moves `Blocking` to
`Committed` (the gate is deliberately not disabled on commit); timeout
expiry and `tryAbort()` abort any non-terminal state with
`ExceededTimeLimit` resp. `TenantMigrationAborted`; a step-down fails the
pending completion future with `InterruptedDueToReplStateChange` without
touching the persisted record. -/
def donorStep (taggedHosts : List String) (recipientSetName : String)
    (m : DonorMachine) (e : DonorEvent) : DonorMachine :=
  if m.completion.isSome then m
  else
    match e with
    | .dataSyncComplete =>
        if m.memState = .kDataSync then
          { m with memState := .kBlocking, persistedState := .kBlocking,
                   gateEnabled := true, visited := m.visited ++ [.kBlocking] }
        else m
    | .membershipChanged servers =>
        if m.memState = .kBlocking ∧
            recipientAcceptSplitPredicate taggedHosts recipientSetName servers = true then
          { m with memState := .kCommitted, persistedState := .kCommitted,
                   completion := some (.ok { state := .kCommitted, abortReason := none }),
                   visited := m.visited ++ [.kCommitted] }
        else m
    | .timeout =>
        if m.memState = .kDataSync ∨ m.memState = .kBlocking then
          abortTransition m .ExceededTimeLimit
        else m
    | .tryAbort =>
        if m.memState = .kDataSync ∨ m.memState = .kBlocking then
          abortTransition m .TenantMigrationAborted
        else m
    | .stepDown =>
        if m.memState = .kDataSync ∨ m.memState = .kBlocking then
          { m with completion := some (.error .InterruptedDueToReplStateChange) }
        else m

/-- Run a Donor State Machine from a record over a sequence of signals. -/
def runDonor (taggedHosts : List String) (doc : ShardSplitDonorDocument)
    (es : List DonorEvent) : DonorMachine :=
  es.foldl (donorStep taggedHosts doc.recipientSetName) (startMachine doc)

/-- The immutable configuration of one split operation as supplied to
`getOrCreate`. -/
structure SplitConfig where
  tenantIds : List String
  recipientTagName : String
  recipientSetName : String
deriving DecidableEq, Repr

/-- An in-memory instance handle registered by the Operation Registry. -/
structure DonorInstance where
  id : Nat
  config : SplitConfig
deriving DecidableEq, Repr

/-- Modelled from the spec: `Registry.getOrCreate(id, config)` over the
in-memory instance table (section 4.1). If an instance for `id` exists it
is returned unchanged when the configuration matches and the call fails
fast when it differs; otherwise a new instance is constructed and
registered before being returned. -/
def getOrCreate (table : List DonorInstance) (id : Nat) (cfg : SplitConfig) :
    Except ErrorCode (DonorInstance × List DonorInstance) :=
  match table.find? (fun inst => inst.id == id) with
  | some inst =>
      if inst.config = cfg then .ok (inst, table)
      else .error .ConflictingOperationInProgress
  | none =>
      .ok (⟨id, cfg⟩, ⟨id, cfg⟩ :: table)

/-- A non-satisfying waiter event: a topology change whose new snapshot
fails the Recipient Acceptance Predicate. -/
def nonSatisfyingWaiterEvent (taggedHosts : List String) (recipientSetName : String)
    (e : WaiterEvent) : Prop :=
  ∃ servers, e = .topologyChanged servers ∧
    recipientAcceptSplitPredicate taggedHosts recipientSetName servers = false

lemma waiterStep_nonSatisfying (taggedHosts : List String) (recipientSetName : String)
    (w : WaiterState) (e : WaiterEvent)
    (he : nonSatisfyingWaiterEvent taggedHosts recipientSetName e) :
    waiterStep taggedHosts recipientSetName w e = w := by
  rcases he with ⟨servers, rfl, hpred⟩
  by_cases hr : w.resolved.isSome
  · simp [waiterStep, hr]
  · simp [waiterStep, hr, hpred]

lemma foldl_waiter_nonSatisfying (taggedHosts : List String) (recipientSetName : String)
    (es : List WaiterEvent) (w : WaiterState)
    (hes : ∀ e ∈ es, nonSatisfyingWaiterEvent taggedHosts recipientSetName e) :
    es.foldl (waiterStep taggedHosts recipientSetName) w = w := by
  induction es with
  | nil => rfl
  | cons e es ih =>
    rw [List.foldl_cons,
      waiterStep_nonSatisfying taggedHosts recipientSetName w e (hes e (by simp))]
    exact ih fun e2 he2 => hes e2 (by simp [he2])

lemma waiterStep_shutdown_inv (taggedHosts : List String) (recipientSetName : String)
    (w : WaiterState) (e : WaiterEvent) (h1 : w.shutdown = true)
    (h2 : w.resolved = none ∨ w.resolved = some (.error .ShutdownInProgress)) :
    (waiterStep taggedHosts recipientSetName w e).shutdown = true ∧
    ((waiterStep taggedHosts recipientSetName w e).resolved = none ∨
     (waiterStep taggedHosts recipientSetName w e).resolved =
       some (.error .ShutdownInProgress)) := by
  by_cases hr : w.resolved.isSome
  · simp [waiterStep, hr, h1, h2]
  · cases e with
    | topologyChanged servers => simp [waiterStep, hr, h1, h2]
    | executorShutdown => simp [waiterStep, hr, h1, h2]
    | cancel => simp [waiterStep, hr, h1]

lemma foldl_waiter_shutdown_inv (taggedHosts : List String) (recipientSetName : String)
    (es : List WaiterEvent) :
    ∀ w : WaiterState, w.shutdown = true →
    (w.resolved = none ∨ w.resolved = some (.error .ShutdownInProgress)) →
    ((es.foldl (waiterStep taggedHosts recipientSetName) w).shutdown = true ∧
     ((es.foldl (waiterStep taggedHosts recipientSetName) w).resolved = none ∨
      (es.foldl (waiterStep taggedHosts recipientSetName) w).resolved =
        some (.error .ShutdownInProgress))) := by
  induction es with
  | nil => exact fun w h1 h2 => ⟨h1, h2⟩
  | cons e es ih =>
    intro w h1 h2
    rw [List.foldl_cons]
    obtain ⟨h3, h4⟩ := waiterStep_shutdown_inv taggedHosts recipientSetName w e h1 h2
    exact ih _ h3 h4

lemma foldl_waiter_topo_after_shutdown (taggedHosts : List String)
    (recipientSetName : String) (es : List WaiterEvent) (w : WaiterState)
    (h1 : w.shutdown = true)
    (hes : ∀ e ∈ es, ∃ servers, e = WaiterEvent.topologyChanged servers) :
    es.foldl (waiterStep taggedHosts recipientSetName) w = w := by
  induction es with
  | nil => rfl
  | cons e es ih =>
    obtain ⟨servers, rfl⟩ := hes e (by simp)
    have hstep : waiterStep taggedHosts recipientSetName w (.topologyChanged servers) = w := by
      by_cases hr : w.resolved.isSome
      · simp [waiterStep, hr]
      · simp [waiterStep, hr, h1]
    rw [List.foldl_cons, hstep]
    exact ih fun e2 he2 => hes e2 (by simp [he2])

/-- Claim C6: the Recipient Acceptance Predicate is false whenever some
tagged node is absent from the snapshot, false whenever some tagged node
reports only set names different from `recipientSetName` (including the
donor's own set name), and true exactly when every tagged node is present
in the snapshot reporting membership in `recipientSetName`. -/
theorem recipientAcceptSplitPredicate_characterization
    (taggedHosts : List String) (recipientSetName : String)
    (servers : List ServerDescription) :
    ((∃ h ∈ taggedHosts, ∀ s ∈ servers, s.host ≠ h) →
      recipientAcceptSplitPredicate taggedHosts recipientSetName servers = false) ∧
    ((∃ h ∈ taggedHosts, ∀ s ∈ servers, s.host = h → s.setName ≠ recipientSetName) →
      recipientAcceptSplitPredicate taggedHosts recipientSetName servers = false) ∧
    (recipientAcceptSplitPredicate taggedHosts recipientSetName servers = true ↔
      ∀ h ∈ taggedHosts, ∃ s ∈ servers, s.host = h ∧ s.setName = recipientSetName) := by
  have key : recipientAcceptSplitPredicate taggedHosts recipientSetName servers = true ↔
      ∀ h ∈ taggedHosts, ∃ s ∈ servers, s.host = h ∧ s.setName = recipientSetName := by
    simp [recipientAcceptSplitPredicate, List.all_eq_true, List.any_eq_true]
  refine ⟨?_, ?_, key⟩
  · rintro ⟨h, hmem, habs⟩
    rcases Bool.eq_false_or_eq_true
        (recipientAcceptSplitPredicate taggedHosts recipientSetName servers) with ht | hf
    · obtain ⟨s, hs, hhost, _⟩ := key.mp ht h hmem
      exact absurd hhost (habs s hs)
    · exact hf
  · rintro ⟨h, hmem, hwrong⟩
    rcases Bool.eq_false_or_eq_true
        (recipientAcceptSplitPredicate taggedHosts recipientSetName servers) with ht | hf
    · obtain ⟨s, hs, hhost, hset⟩ := key.mp ht h hmem
      exact absurd hset (hwrong s hs hhost)
    · exact hf

/-- Concrete evaluation of the C6 characterization: one tagged host and
the three snapshot shapes the tests exercise (node absent, node in the
wrong set, node in the recipient set). -/
theorem recipientAcceptSplitPredicate_characterization_witness :
    recipientAcceptSplitPredicate ["node1"] "recipientSet" [] = false ∧
    recipientAcceptSplitPredicate ["node1"] "recipientSet"
      [{ host := "node1", setName := "donorSet" }] = false ∧
    recipientAcceptSplitPredicate ["node1"] "recipientSet"
      [{ host := "node1", setName := "recipientSet" }] = true :=
  ⟨(recipientAcceptSplitPredicate_characterization ["node1"] "recipientSet" []).1
      ⟨"node1", by simp, by simp⟩,
   (recipientAcceptSplitPredicate_characterization ["node1"] "recipientSet"
      [{ host := "node1", setName := "donorSet" }]).2.1
      ⟨"node1", by simp, by decide⟩,
   (recipientAcceptSplitPredicate_characterization ["node1"] "recipientSet"
      [{ host := "node1", setName := "recipientSet" }]).2.2.mpr (by decide)⟩

/-- Claim C7: if only non-satisfying topology events have been observed,
the acceptance future is not ready, and triggering the cancellation token
then resolves it with `CallbackCanceled`. -/
theorem cancel_resolves_callbackCanceled (taggedHosts : List String)
    (recipientSetName : String) (es : List WaiterEvent)
    (hes : ∀ e ∈ es, nonSatisfyingWaiterEvent taggedHosts recipientSetName e) :
    (runWaiter taggedHosts recipientSetName es).resolved = none ∧
    (runWaiter taggedHosts recipientSetName (es ++ [.cancel])).resolved =
      some (.error .CallbackCanceled) := by
  have h1 : runWaiter taggedHosts recipientSetName es = initialWaiterState :=
    foldl_waiter_nonSatisfying taggedHosts recipientSetName es initialWaiterState hes
  constructor
  · rw [h1]; rfl
  · unfold runWaiter
    rw [List.foldl_append]
    show (waiterStep taggedHosts recipientSetName
      (runWaiter taggedHosts recipientSetName es) .cancel).resolved = _
    rw [h1]; rfl

/-- Concrete run of the C7 theorem: one non-satisfying topology event,
then the token fires. -/
theorem cancel_resolves_callbackCanceled_witness :
    (runWaiter ["node1"] "recipientSet" [.topologyChanged []]).resolved = none ∧
    (runWaiter ["node1"] "recipientSet"
      ([.topologyChanged []] ++ [.cancel])).resolved =
      some (.error .CallbackCanceled) :=
  cancel_resolves_callbackCanceled ["node1"] "recipientSet" [.topologyChanged []]
    (by
      rintro e he
      rcases List.mem_singleton.mp he with rfl
      exact ⟨[], rfl, by decide⟩)

/-- Claim C8: once the executor underlying the acceptance wait has been
shut down while the future is pending, every later resolution carries
`ShutdownInProgress` — in particular when the cancellation token fires
afterwards, the future resolves with `ShutdownInProgress`, not
`CallbackCanceled`. -/
theorem shutdown_then_resolution_is_shutdownInProgress (taggedHosts : List String)
    (recipientSetName : String) (es1 es2 : List WaiterEvent)
    (hes1 : ∀ e ∈ es1, nonSatisfyingWaiterEvent taggedHosts recipientSetName e) :
    (runWaiter taggedHosts recipientSetName
      (es1 ++ .executorShutdown :: es2 ++ [.cancel])).resolved =
      some (.error .ShutdownInProgress) := by
  unfold runWaiter
  have hcons : List.foldl (waiterStep taggedHosts recipientSetName) initialWaiterState
      (WaiterEvent.executorShutdown :: es2) =
      es2.foldl (waiterStep taggedHosts recipientSetName)
        (waiterStep taggedHosts recipientSetName initialWaiterState .executorShutdown) := by
    rw [List.foldl_cons]
  rw [List.foldl_append, List.foldl_append,
    foldl_waiter_nonSatisfying taggedHosts recipientSetName es1 initialWaiterState hes1,
    hcons]
  set w2 := es2.foldl (waiterStep taggedHosts recipientSetName)
    (waiterStep taggedHosts recipientSetName initialWaiterState .executorShutdown) with hw2
  obtain ⟨hsd, hres⟩ := foldl_waiter_shutdown_inv taggedHosts recipientSetName es2
    (waiterStep taggedHosts recipientSetName initialWaiterState .executorShutdown)
    rfl (Or.inl rfl)
  rw [← hw2] at hsd hres
  show (waiterStep taggedHosts recipientSetName w2 .cancel).resolved = _
  rcases hres with h | h
  · have hr : w2.resolved.isSome = false := by rw [h]; rfl
    simp [waiterStep, hr, hsd]
  · have hr : w2.resolved.isSome = true := by rw [h]; rfl
    simp [waiterStep, hr, h]

/-- Concrete run of the C8 theorem: executor shutdown, a topology event,
then the token fires; the resolution is `ShutdownInProgress`. -/
theorem shutdown_then_resolution_is_shutdownInProgress_witness :
    (runWaiter ["node1"] "recipientSet"
      ([.topologyChanged []] ++ .executorShutdown ::
        [.topologyChanged [{ host := "node1", setName := "recipientSet" }]] ++
        [.cancel])).resolved = some (.error .ShutdownInProgress) :=
  shutdown_then_resolution_is_shutdownInProgress ["node1"] "recipientSet"
    [.topologyChanged []]
    [.topologyChanged [{ host := "node1", setName := "recipientSet" }]]
    (by
      rintro e he
      rcases List.mem_singleton.mp he with rfl
      exact ⟨[], rfl, by decide⟩)

/-- Claim C10: shutting down the executor does not by itself resolve the
acceptance future — it stays not ready through any further topology
events, even satisfying ones, and only once the cancellation token fires
does it resolve, with `ShutdownInProgress` rather than
`CallbackCanceled`. -/
theorem shutdown_alone_keeps_future_pending (taggedHosts : List String)
    (recipientSetName : String) (es1 es2 : List WaiterEvent)
    (hes1 : ∀ e ∈ es1, nonSatisfyingWaiterEvent taggedHosts recipientSetName e)
    (hes2 : ∀ e ∈ es2, ∃ servers, e = WaiterEvent.topologyChanged servers) :
    (runWaiter taggedHosts recipientSetName
      (es1 ++ .executorShutdown :: es2)).resolved = none ∧
    (runWaiter taggedHosts recipientSetName
      (es1 ++ .executorShutdown :: es2 ++ [.cancel])).resolved =
      some (.error .ShutdownInProgress) := by
  have hbase : List.foldl (waiterStep taggedHosts recipientSetName) initialWaiterState
      (WaiterEvent.executorShutdown :: es2) =
      waiterStep taggedHosts recipientSetName initialWaiterState .executorShutdown := by
    rw [List.foldl_cons]
    exact foldl_waiter_topo_after_shutdown taggedHosts recipientSetName es2 _ rfl hes2
  constructor
  · unfold runWaiter
    rw [List.foldl_append,
      foldl_waiter_nonSatisfying taggedHosts recipientSetName es1 initialWaiterState hes1,
      hbase]
    rfl
  · unfold runWaiter
    rw [List.foldl_append, List.foldl_append,
      foldl_waiter_nonSatisfying taggedHosts recipientSetName es1 initialWaiterState hes1,
      hbase]
    rfl

/-- Concrete run of the C10 theorem: after shutdown, a satisfying topology
event leaves the future pending; the token then resolves it with
`ShutdownInProgress`. -/
theorem shutdown_alone_keeps_future_pending_witness :
    (runWaiter ["node1"] "recipientSet"
      ([.topologyChanged []] ++ .executorShutdown ::
        [.topologyChanged [{ host := "node1", setName := "recipientSet" }]])).resolved =
      none ∧
    (runWaiter ["node1"] "recipientSet"
      ([.topologyChanged []] ++ .executorShutdown ::
        [.topologyChanged [{ host := "node1", setName := "recipientSet" }]] ++
        [.cancel])).resolved = some (.error .ShutdownInProgress) :=
  shutdown_alone_keeps_future_pending ["node1"] "recipientSet"
    [.topologyChanged []]
    [.topologyChanged [{ host := "node1", setName := "recipientSet" }]]
    (by
      rintro e he
      rcases List.mem_singleton.mp he with rfl
      exact ⟨[], rfl, by decide⟩)
    (by
      rintro e he
      rcases List.mem_singleton.mp he with rfl
      exact ⟨_, rfl⟩)

lemma startMachine_eq_of_uninit (doc : ShardSplitDonorDocument)
    (h : doc.state = .kUninitialized) :
    startMachine doc =
      { memState := .kDataSync, persistedState := .kDataSync, abortReason := none,
        gateEnabled := false, gateDisableCount := 0, completion := none,
        visited := [.kUninitialized, .kDataSync] } := by
  unfold startMachine
  rw [h]

lemma startMachine_eq_of_aborted (doc : ShardSplitDonorDocument)
    (h : doc.state = .kAborted) :
    startMachine doc =
      { memState := .kAborted, persistedState := .kAborted,
        abortReason := some .TenantMigrationAborted,
        gateEnabled := false, gateDisableCount := 0,
        completion := some (.ok { state := .kAborted,
                                  abortReason := some .TenantMigrationAborted }),
        visited := [.kAborted] } := by
  unfold startMachine
  rw [h]

lemma donorStep_resolved (taggedHosts : List String) (recipientSetName : String)
    (m : DonorMachine) (e : DonorEvent) (h : m.completion.isSome = true) :
    donorStep taggedHosts recipientSetName m e = m := by
  simp [donorStep, h]

lemma foldl_donor_resolved (taggedHosts : List String) (recipientSetName : String)
    (es : List DonorEvent) (m : DonorMachine) (h : m.completion.isSome = true) :
    es.foldl (donorStep taggedHosts recipientSetName) m = m := by
  induction es with
  | nil => rfl
  | cons e es ih =>
    rw [List.foldl_cons, donorStep_resolved taggedHosts recipientSetName m e h]
    exact ih

/-- A donor event that neither resolves nor interrupts a running machine:
data-sync success, or a membership event failing the Recipient Acceptance
Predicate. -/
def nonResolvingDonorEvent (taggedHosts : List String) (recipientSetName : String)
    (e : DonorEvent) : Prop :=
  e = .dataSyncComplete ∨ ∃ servers, e = .membershipChanged servers ∧
    recipientAcceptSplitPredicate taggedHosts recipientSetName servers = false

/-- Every step of a pending machine is one of five outcomes: a no-op, the
`DataSync → Blocking` move, the `Blocking → Committed` commit, an abort
transition, or the step-down interruption. -/
lemma donorStep_classify (taggedHosts : List String) (recipientSetName : String)
    (m : DonorMachine) (e : DonorEvent) (hr : m.completion.isSome = false) :
    donorStep taggedHosts recipientSetName m e = m ∨
    (m.memState = .kDataSync ∧ donorStep taggedHosts recipientSetName m e =
       { m with memState := .kBlocking, persistedState := .kBlocking,
                gateEnabled := true, visited := m.visited ++ [.kBlocking] }) ∨
    (m.memState = .kBlocking ∧ donorStep taggedHosts recipientSetName m e =
       { m with memState := .kCommitted, persistedState := .kCommitted,
                completion := some (.ok { state := .kCommitted, abortReason := none }),
                visited := m.visited ++ [.kCommitted] }) ∨
    (∃ reason, donorStep taggedHosts recipientSetName m e = abortTransition m reason) ∨
    donorStep taggedHosts recipientSetName m e =
      { m with completion := some (.error .InterruptedDueToReplStateChange) } := by
  cases e with
  | dataSyncComplete =>
      by_cases hds : m.memState = .kDataSync
      · exact Or.inr (Or.inl ⟨hds, by simp [donorStep, hr, hds]⟩)
      · exact Or.inl (by simp [donorStep, hr, hds])
  | membershipChanged servers =>
      by_cases hc : m.memState = .kBlocking ∧
          recipientAcceptSplitPredicate taggedHosts recipientSetName servers = true
      · exact Or.inr (Or.inr (Or.inl ⟨hc.1, by simp [donorStep, hr, hc]⟩))
      · exact Or.inl (by simp [donorStep, hr, hc])
  | timeout =>
      by_cases hc : m.memState = .kDataSync ∨ m.memState = .kBlocking
      · exact Or.inr (Or.inr (Or.inr (Or.inl
          ⟨.ExceededTimeLimit, by simp [donorStep, hr, hc]⟩)))
      · exact Or.inl (by simp [donorStep, hr, hc])
  | tryAbort =>
      by_cases hc : m.memState = .kDataSync ∨ m.memState = .kBlocking
      · exact Or.inr (Or.inr (Or.inr (Or.inl
          ⟨.TenantMigrationAborted, by simp [donorStep, hr, hc]⟩)))
      · exact Or.inl (by simp [donorStep, hr, hc])
  | stepDown =>
      by_cases hc : m.memState = .kDataSync ∨ m.memState = .kBlocking
      · exact Or.inr (Or.inr (Or.inr (Or.inr (by simp [donorStep, hr, hc]))))
      · exact Or.inl (by simp [donorStep, hr, hc])

lemma donorStep_nonResolving (taggedHosts : List String) (recipientSetName : String)
    (m : DonorMachine) (e : DonorEvent) (h1 : m.completion = none)
    (h2 : m.memState = .kDataSync ∨ m.memState = .kBlocking)
    (h3 : nonResolvingDonorEvent taggedHosts recipientSetName e) :
    (donorStep taggedHosts recipientSetName m e).completion = none ∧
    ((donorStep taggedHosts recipientSetName m e).memState = .kDataSync ∨
     (donorStep taggedHosts recipientSetName m e).memState = .kBlocking) := by
  have hr : m.completion.isSome = false := by rw [h1]; rfl
  rcases h3 with rfl | ⟨servers, rfl, hpred⟩
  · rcases h2 with h2 | h2
    · have hstep : donorStep taggedHosts recipientSetName m .dataSyncComplete =
          { m with memState := .kBlocking, persistedState := .kBlocking,
                   gateEnabled := true, visited := m.visited ++ [.kBlocking] } := by
        simp [donorStep, hr, h2]
      rw [hstep]
      exact ⟨h1, Or.inr rfl⟩
    · have hds : ¬ m.memState = .kDataSync := by rw [h2]; decide
      have hstep : donorStep taggedHosts recipientSetName m .dataSyncComplete = m := by
        simp [donorStep, hr, hds]
      rw [hstep]
      exact ⟨h1, Or.inr h2⟩
  · have hcond : ¬ (m.memState = .kBlocking ∧
        recipientAcceptSplitPredicate taggedHosts recipientSetName servers = true) := by
      simp [hpred]
    have hstep : donorStep taggedHosts recipientSetName m (.membershipChanged servers) = m := by
      simp [donorStep, hr, hcond]
    rw [hstep]
    exact ⟨h1, h2⟩

lemma foldl_donor_pending (taggedHosts : List String) (recipientSetName : String)
    (es : List DonorEvent) :
    ∀ m : DonorMachine, m.completion = none →
    (m.memState = .kDataSync ∨ m.memState = .kBlocking) →
    (∀ e ∈ es, nonResolvingDonorEvent taggedHosts recipientSetName e) →
    ((es.foldl (donorStep taggedHosts recipientSetName) m).completion = none ∧
     ((es.foldl (donorStep taggedHosts recipientSetName) m).memState = .kDataSync ∨
      (es.foldl (donorStep taggedHosts recipientSetName) m).memState = .kBlocking)) := by
  induction es with
  | nil => exact fun m h1 h2 _ => ⟨h1, h2⟩
  | cons e es ih =>
    intro m h1 h2 h3
    rw [List.foldl_cons]
    obtain ⟨h4, h5⟩ := donorStep_nonResolving taggedHosts recipientSetName m e h1 h2
      (h3 e (by simp))
    exact ih _ h4 h5 fun e2 he2 => h3 e2 (by simp [he2])

/-- A pending machine is in a non-terminal running phase: whenever the
completion future is unresolved, the machine is in `DataSync` or
`Blocking`. -/
def nonTerminalWhenPending (m : DonorMachine) : Prop :=
  m.completion = none → (m.memState = .kDataSync ∨ m.memState = .kBlocking)

lemma donorStep_nonTerminalWhenPending (taggedHosts : List String)
    (recipientSetName : String) (m : DonorMachine) (e : DonorEvent)
    (h : nonTerminalWhenPending m) :
    nonTerminalWhenPending (donorStep taggedHosts recipientSetName m e) := by
  by_cases hr : m.completion.isSome = true
  · rwa [donorStep_resolved taggedHosts recipientSetName m e hr]
  · have hr2 : m.completion.isSome = false := by
      cases hc : m.completion with
      | none => rfl
      | some v => rw [hc] at hr; exact absurd rfl hr
    rcases donorStep_classify taggedHosts recipientSetName m e hr2 with
      hstep | ⟨hds, hstep⟩ | ⟨hb, hstep⟩ | ⟨reason, hstep⟩ | hstep
    · rwa [hstep]
    · rw [hstep]; intro _; exact Or.inr rfl
    · rw [hstep]; intro hp; simp at hp
    · rw [hstep]; intro hp; simp [abortTransition] at hp
    · rw [hstep]; intro hp; simp at hp

lemma runDonor_nonTerminalWhenPending (taggedHosts : List String)
    (doc : ShardSplitDonorDocument) (es : List DonorEvent) :
    nonTerminalWhenPending (runDonor taggedHosts doc es) := by
  unfold runDonor
  have hstart : nonTerminalWhenPending (startMachine doc) := by
    unfold nonTerminalWhenPending startMachine
    cases doc.state <;> simp
  generalize startMachine doc = m0 at hstart
  induction es generalizing m0 with
  | nil => exact hstart
  | cons e es ih =>
    rw [List.foldl_cons]
    exact ih _ (donorStep_nonTerminalWhenPending taggedHosts doc.recipientSetName m0 e hstart)

/-- The Write-Blocking Gate tracks the phase: enabled in `Blocking`,
not yet enabled in `DataSync`. -/
def gateMatchesPhase (m : DonorMachine) : Prop :=
  (m.memState = .kBlocking → m.gateEnabled = true) ∧
  (m.memState = .kDataSync → m.gateEnabled = false)

lemma donorStep_gateMatchesPhase (taggedHosts : List String)
    (recipientSetName : String) (m : DonorMachine) (e : DonorEvent)
    (h : gateMatchesPhase m) :
    gateMatchesPhase (donorStep taggedHosts recipientSetName m e) := by
  by_cases hr : m.completion.isSome = true
  · rwa [donorStep_resolved taggedHosts recipientSetName m e hr]
  · have hr2 : m.completion.isSome = false := by
      cases hc : m.completion with
      | none => rfl
      | some v => rw [hc] at hr; exact absurd rfl hr
    obtain ⟨hbgate, hdgate⟩ := h
    rcases donorStep_classify taggedHosts recipientSetName m e hr2 with
      hstep | ⟨hds, hstep⟩ | ⟨hb, hstep⟩ | ⟨reason, hstep⟩ | hstep
    · rw [hstep]; exact ⟨hbgate, hdgate⟩
    · rw [hstep]
      exact ⟨fun _ => rfl, fun hc => by simp at hc⟩
    · rw [hstep]
      exact ⟨fun hc => by simp at hc, fun hc => by simp at hc⟩
    · rw [hstep]
      exact ⟨fun hc => by simp [abortTransition] at hc,
             fun hc => by simp [abortTransition] at hc⟩
    · rw [hstep]
      exact ⟨hbgate, hdgate⟩

lemma runDonor_gateMatchesPhase (taggedHosts : List String)
    (doc : ShardSplitDonorDocument) (es : List DonorEvent) :
    gateMatchesPhase (runDonor taggedHosts doc es) := by
  unfold runDonor
  have hstart : gateMatchesPhase (startMachine doc) := by
    unfold gateMatchesPhase startMachine
    cases doc.state <;> simp
  generalize startMachine doc = m0 at hstart
  induction es generalizing m0 with
  | nil => exact hstart
  | cons e es ih =>
    rw [List.foldl_cons]
    exact ih _ (donorStep_gateMatchesPhase taggedHosts doc.recipientSetName m0 e hstart)

/-- Claim C1: for a valid configuration, starting a split (state
`Uninitialized`) and then, once data sync completes, delivering a
membership change event whose snapshot satisfies the Recipient Acceptance
Predicate resolves the completion future with `Committed` and no abort
reason. -/
theorem startSplit_commits_on_recipient_acceptance (taggedHosts : List String)
    (doc : ShardSplitDonorDocument) (servers : List ServerDescription)
    (hvalid : validStateDocument doc) (hstate : doc.state = .kUninitialized)
    (hpred : recipientAcceptSplitPredicate taggedHosts doc.recipientSetName servers = true) :
    (runDonor taggedHosts doc [.dataSyncComplete, .membershipChanged servers]).completion =
      some (.ok { state := .kCommitted, abortReason := none }) ∧
    (runDonor taggedHosts doc [.dataSyncComplete, .membershipChanged servers]).abortReason =
      none := by
  unfold runDonor
  rw [startMachine_eq_of_uninit doc hstate]
  simp [donorStep, hpred]

/-- Concrete run of the C1 theorem at the default test configuration. -/
theorem startSplit_commits_on_recipient_acceptance_witness :
    (runDonor ["node1"]
      { id := 0, tenantIds := ["tenant1", "tenantAB"],
        recipientTagName := "recipientNode", recipientSetName := "recipientSet",
        state := .kUninitialized }
      [.dataSyncComplete,
       .membershipChanged [{ host := "node1", setName := "recipientSet" }]]).completion =
      some (.ok { state := .kCommitted, abortReason := none }) ∧
    (runDonor ["node1"]
      { id := 0, tenantIds := ["tenant1", "tenantAB"],
        recipientTagName := "recipientNode", recipientSetName := "recipientSet",
        state := .kUninitialized }
      [.dataSyncComplete,
       .membershipChanged [{ host := "node1", setName := "recipientSet" }]]).abortReason =
      none :=
  startSplit_commits_on_recipient_acceptance ["node1"]
    { id := 0, tenantIds := ["tenant1", "tenantAB"],
      recipientTagName := "recipientNode", recipientSetName := "recipientSet",
      state := .kUninitialized }
    [{ host := "node1", setName := "recipientSet" }]
    (by decide) rfl (by decide)

/-- Claim C2: if no membership event satisfying the Recipient Acceptance
Predicate has arrived when the timeout deadline fires, the completion
future resolves with `Aborted` and abort reason `ExceededTimeLimit`. -/
theorem timeout_aborts_with_exceededTimeLimit (taggedHosts : List String)
    (doc : ShardSplitDonorDocument) (es : List DonorEvent)
    (hstate : doc.state = .kUninitialized)
    (hes : ∀ e ∈ es, nonResolvingDonorEvent taggedHosts doc.recipientSetName e) :
    (runDonor taggedHosts doc (es ++ [.timeout])).completion =
      some (.ok { state := .kAborted, abortReason := some .ExceededTimeLimit }) ∧
    (runDonor taggedHosts doc (es ++ [.timeout])).abortReason =
      some .ExceededTimeLimit := by
  unfold runDonor
  rw [List.foldl_append, startMachine_eq_of_uninit doc hstate]
  obtain ⟨h1, h2⟩ := foldl_donor_pending taggedHosts doc.recipientSetName es
    { memState := .kDataSync, persistedState := .kDataSync, abortReason := none,
      gateEnabled := false, gateDisableCount := 0, completion := none,
      visited := [.kUninitialized, .kDataSync] } rfl (Or.inl rfl) hes
  set m := es.foldl (donorStep taggedHosts doc.recipientSetName)
    { memState := .kDataSync, persistedState := .kDataSync, abortReason := none,
      gateEnabled := false, gateDisableCount := 0, completion := none,
      visited := [.kUninitialized, .kDataSync] } with hm
  have hr : m.completion.isSome = false := by rw [h1]; rfl
  show ((donorStep taggedHosts doc.recipientSetName m .timeout).completion = _) ∧
    ((donorStep taggedHosts doc.recipientSetName m .timeout).abortReason = _)
  simp [donorStep, hr, h2, abortTransition]

/-- Concrete run of the C2 theorem: one non-satisfying membership event,
then the deadline fires. -/
theorem timeout_aborts_with_exceededTimeLimit_witness :
    (runDonor ["node1"]
      { id := 0, tenantIds := ["tenant1", "tenantAB"],
        recipientTagName := "recipientNode", recipientSetName := "recipientSet",
        state := .kUninitialized }
      ([.membershipChanged [{ host := "node1", setName := "donorSetForTest" }]] ++
        [.timeout])).completion =
      some (.ok { state := .kAborted, abortReason := some .ExceededTimeLimit }) ∧
    (runDonor ["node1"]
      { id := 0, tenantIds := ["tenant1", "tenantAB"],
        recipientTagName := "recipientNode", recipientSetName := "recipientSet",
        state := .kUninitialized }
      ([.membershipChanged [{ host := "node1", setName := "donorSetForTest" }]] ++
        [.timeout])).abortReason = some .ExceededTimeLimit :=
  timeout_aborts_with_exceededTimeLimit ["node1"]
    { id := 0, tenantIds := ["tenant1", "tenantAB"],
      recipientTagName := "recipientNode", recipientSetName := "recipientSet",
      state := .kUninitialized }
    [.membershipChanged [{ host := "node1", setName := "donorSetForTest" }]]
    rfl
    (by
      rintro e he
      rcases List.mem_singleton.mp he with rfl
      exact Or.inr ⟨_, rfl, by decide⟩)

/-- Claim C4: a machine constructed from a record whose state is already
`Aborted` resolves its completion future with `Aborted` and abort reason
`TenantMigrationAborted`, and never enters the `DataSync` or `Blocking`
phases regardless of subsequent events. -/
theorem aborted_document_resumes_terminal (taggedHosts : List String)
    (doc : ShardSplitDonorDocument) (es : List DonorEvent)
    (hstate : doc.state = .kAborted) :
    (runDonor taggedHosts doc es).completion =
      some (.ok { state := .kAborted, abortReason := some .TenantMigrationAborted }) ∧
    ShardSplitDonorStateEnum.kDataSync ∉ (runDonor taggedHosts doc es).visited ∧
    ShardSplitDonorStateEnum.kBlocking ∉ (runDonor taggedHosts doc es).visited := by
  have hrun : runDonor taggedHosts doc es = startMachine doc := by
    unfold runDonor
    apply foldl_donor_resolved
    rw [startMachine_eq_of_aborted doc hstate]
    rfl
  rw [hrun, startMachine_eq_of_aborted doc hstate]
  refine ⟨rfl, by decide, by decide⟩

/-- Concrete run of the C4 theorem: a pre-aborted record with trailing
events that are all ignored. -/
theorem aborted_document_resumes_terminal_witness :
    (runDonor ["node1"]
      { id := 0, tenantIds := ["tenant1", "tenantAB"],
        recipientTagName := "recipientNode", recipientSetName := "recipientSet",
        state := .kAborted } [.dataSyncComplete, .timeout]).completion =
      some (.ok { state := .kAborted, abortReason := some .TenantMigrationAborted }) ∧
    ShardSplitDonorStateEnum.kDataSync ∉ (runDonor ["node1"]
      { id := 0, tenantIds := ["tenant1", "tenantAB"],
        recipientTagName := "recipientNode", recipientSetName := "recipientSet",
        state := .kAborted } [.dataSyncComplete, .timeout]).visited ∧
    ShardSplitDonorStateEnum.kBlocking ∉ (runDonor ["node1"]
      { id := 0, tenantIds := ["tenant1", "tenantAB"],
        recipientTagName := "recipientNode", recipientSetName := "recipientSet",
        state := .kAborted } [.dataSyncComplete, .timeout]).visited :=
  aborted_document_resumes_terminal ["node1"]
    { id := 0, tenantIds := ["tenant1", "tenantAB"],
      recipientTagName := "recipientNode", recipientSetName := "recipientSet",
      state := .kAborted } [.dataSyncComplete, .timeout] rfl

/-- Claim C5: a step-down while the machine is running (completion future
still pending, hence a non-terminal phase) fails the completion future
with the error `InterruptedDueToReplStateChange` — not an `Aborted`
result — and leaves the persisted record state and the in-memory phase
untouched. -/
theorem stepDown_interrupts_without_persisting (taggedHosts : List String)
    (doc : ShardSplitDonorDocument) (es : List DonorEvent)
    (hpending : (runDonor taggedHosts doc es).completion = none) :
    (donorStep taggedHosts doc.recipientSetName (runDonor taggedHosts doc es)
        .stepDown).completion =
      some (.error .InterruptedDueToReplStateChange) ∧
    (donorStep taggedHosts doc.recipientSetName (runDonor taggedHosts doc es)
        .stepDown).persistedState = (runDonor taggedHosts doc es).persistedState ∧
    (donorStep taggedHosts doc.recipientSetName (runDonor taggedHosts doc es)
        .stepDown).memState = (runDonor taggedHosts doc es).memState := by
  have h2 := runDonor_nonTerminalWhenPending taggedHosts doc es hpending
  set m := runDonor taggedHosts doc es with hm
  have hr : m.completion.isSome = false := by rw [hpending]; rfl
  simp [donorStep, hr, h2]

/-- Concrete run of the C5 theorem: step-down right after the machine
entered `Blocking`. -/
theorem stepDown_interrupts_without_persisting_witness :
    (donorStep ["node1"] "recipientSet"
      (runDonor ["node1"]
        { id := 0, tenantIds := ["tenant1", "tenantAB"],
          recipientTagName := "recipientNode", recipientSetName := "recipientSet",
          state := .kUninitialized } [.dataSyncComplete]) .stepDown).completion =
      some (.error .InterruptedDueToReplStateChange) ∧
    (donorStep ["node1"] "recipientSet"
      (runDonor ["node1"]
        { id := 0, tenantIds := ["tenant1", "tenantAB"],
          recipientTagName := "recipientNode", recipientSetName := "recipientSet",
          state := .kUninitialized } [.dataSyncComplete]) .stepDown).persistedState =
      (runDonor ["node1"]
        { id := 0, tenantIds := ["tenant1", "tenantAB"],
          recipientTagName := "recipientNode", recipientSetName := "recipientSet",
          state := .kUninitialized } [.dataSyncComplete]).persistedState ∧
    (donorStep ["node1"] "recipientSet"
      (runDonor ["node1"]
        { id := 0, tenantIds := ["tenant1", "tenantAB"],
          recipientTagName := "recipientNode", recipientSetName := "recipientSet",
          state := .kUninitialized } [.dataSyncComplete]) .stepDown).memState =
      (runDonor ["node1"]
        { id := 0, tenantIds := ["tenant1", "tenantAB"],
          recipientTagName := "recipientNode", recipientSetName := "recipientSet",
          state := .kUninitialized } [.dataSyncComplete]).memState :=
  stepDown_interrupts_without_persisting ["node1"]
    { id := 0, tenantIds := ["tenant1", "tenantAB"],
      recipientTagName := "recipientNode", recipientSetName := "recipientSet",
      state := .kUninitialized } [.dataSyncComplete] (by decide)

/-- The recipient-tagged hosts used for concrete runs. -/
def testTaggedHosts : List String := ["node1"]

/-- The default state document of the tests: fresh split,
two tenants, recipient tag and set name. -/
def testStateDocument : ShardSplitDonorDocument :=
  { id := 0, tenantIds := ["tenant1", "tenantAB"],
    recipientTagName := "recipientNode", recipientSetName := "recipientSet",
    state := .kUninitialized }

/-- Claim C3 counterexample: a freshly started machine is running and
non-terminal in the `DataSync` phase; `tryAbort()` there resolves the
completion future with `{Aborted, TenantMigrationAborted}`, but the
Write-Blocking Gate — not yet enabled in `DataSync` — is disabled zero
times, not exactly once as the claim states for every such machine. -/
theorem tryAbort_in_dataSync_gate_not_disabled_once :
    (runDonor testTaggedHosts testStateDocument []).completion = none ∧
    (runDonor testTaggedHosts testStateDocument []).memState = .kDataSync ∧
    (runDonor testTaggedHosts testStateDocument [.tryAbort]).completion =
      some (.ok { state := .kAborted, abortReason := some .TenantMigrationAborted }) ∧
    (runDonor testTaggedHosts testStateDocument [.tryAbort]).gateDisableCount = 0 :=
  ⟨rfl, rfl, rfl, rfl⟩

/-- Claim C3 (amended): `tryAbort()` on a running non-terminal machine
resolves the completion future with `{Aborted, TenantMigrationAborted}`;
the Write-Blocking Gate is disabled exactly once when the machine is in
`Blocking` (where the gate is enabled) and zero times in `DataSync`
(where it is not yet enabled); and `tryAbort()` is idempotent and safe to
deliver to a machine in any state. -/
theorem tryAbort_aborts_with_gate_disable_semantics (taggedHosts : List String)
    (doc : ShardSplitDonorDocument) (es : List DonorEvent)
    (hpending : (runDonor taggedHosts doc es).completion = none) :
    ((runDonor taggedHosts doc es).memState = .kBlocking →
      ((donorStep taggedHosts doc.recipientSetName (runDonor taggedHosts doc es)
          .tryAbort).completion =
        some (.ok { state := .kAborted, abortReason := some .TenantMigrationAborted }) ∧
       (donorStep taggedHosts doc.recipientSetName (runDonor taggedHosts doc es)
          .tryAbort).gateDisableCount =
        (runDonor taggedHosts doc es).gateDisableCount + 1)) ∧
    ((runDonor taggedHosts doc es).memState = .kDataSync →
      ((donorStep taggedHosts doc.recipientSetName (runDonor taggedHosts doc es)
          .tryAbort).completion =
        some (.ok { state := .kAborted, abortReason := some .TenantMigrationAborted }) ∧
       (donorStep taggedHosts doc.recipientSetName (runDonor taggedHosts doc es)
          .tryAbort).gateDisableCount =
        (runDonor taggedHosts doc es).gateDisableCount)) ∧
    (∀ m2 : DonorMachine,
      donorStep taggedHosts doc.recipientSetName
        (donorStep taggedHosts doc.recipientSetName m2 .tryAbort) .tryAbort =
      donorStep taggedHosts doc.recipientSetName m2 .tryAbort) := by
  obtain ⟨hbgate, hdgate⟩ := runDonor_gateMatchesPhase taggedHosts doc es
  set m := runDonor taggedHosts doc es with hm
  have hr : m.completion.isSome = false := by rw [hpending]; rfl
  refine ⟨?_, ?_, ?_⟩
  · intro hb
    have hg := hbgate hb
    have hstep : donorStep taggedHosts doc.recipientSetName m .tryAbort =
        abortTransition m .TenantMigrationAborted := by
      simp [donorStep, hr, hb]
    rw [hstep]
    exact ⟨rfl, by simp [abortTransition, hg]⟩
  · intro hd
    have hg := hdgate hd
    have hstep : donorStep taggedHosts doc.recipientSetName m .tryAbort =
        abortTransition m .TenantMigrationAborted := by
      simp [donorStep, hr, hd]
    rw [hstep]
    exact ⟨rfl, by simp [abortTransition, hg]⟩
  · intro m2
    by_cases hr2 : m2.completion.isSome = true
    · rw [donorStep_resolved taggedHosts doc.recipientSetName m2 .tryAbort hr2,
        donorStep_resolved taggedHosts doc.recipientSetName m2 .tryAbort hr2]
    · have hr3 : m2.completion.isSome = false := by
        cases hx : m2.completion.isSome with
        | false => rfl
        | true => exact absurd hx hr2
      by_cases hc : m2.memState = .kDataSync ∨ m2.memState = .kBlocking
      · have hstep : donorStep taggedHosts doc.recipientSetName m2 .tryAbort =
            abortTransition m2 .TenantMigrationAborted := by
          simp [donorStep, hr3, hc]
        rw [hstep]
        exact donorStep_resolved taggedHosts doc.recipientSetName
          (abortTransition m2 .TenantMigrationAborted) .tryAbort rfl
      · have hstep : donorStep taggedHosts doc.recipientSetName m2 .tryAbort = m2 := by
          simp [donorStep, hr3, hc]
        rw [hstep, hstep]

/-- Concrete run of the amended C3 theorem: after data sync the machine is
in `Blocking`; `tryAbort()` aborts it and disables the gate exactly
once. -/
theorem tryAbort_aborts_with_gate_disable_semantics_witness :
    (donorStep testTaggedHosts testStateDocument.recipientSetName
      (runDonor testTaggedHosts testStateDocument [.dataSyncComplete])
      .tryAbort).completion =
      some (.ok { state := .kAborted, abortReason := some .TenantMigrationAborted }) ∧
    (donorStep testTaggedHosts testStateDocument.recipientSetName
      (runDonor testTaggedHosts testStateDocument [.dataSyncComplete])
      .tryAbort).gateDisableCount =
      (runDonor testTaggedHosts testStateDocument [.dataSyncComplete]).gateDisableCount
        + 1 :=
  (tryAbort_aborts_with_gate_disable_semantics testTaggedHosts testStateDocument
    [.dataSyncComplete] (by decide)).1 (by decide)

/-- A registry configuration for concrete runs. -/
def testSplitConfig : SplitConfig :=
  { tenantIds := ["tenant1", "tenantAB"], recipientTagName := "recipientNode",
    recipientSetName := "recipientSet" }

/-- A different registry configuration for the same id. -/
def testSplitConfigOther : SplitConfig :=
  { tenantIds := ["tenant1"], recipientTagName := "recipientNode",
    recipientSetName := "recipientSet" }

/-- Claim C9: `getOrCreate` is idempotent per id — after a call returns a
handle and a registry table, a second call with the same id and
configuration returns the very same handle and leaves the table unchanged
(so no second instance or run loop is created), while a second call with
a different configuration for the existing id fails fast. -/
theorem getOrCreate_idempotent (table : List DonorInstance) (id : Nat)
    (cfg : SplitConfig) (inst : DonorInstance) (table2 : List DonorInstance)
    (h : getOrCreate table id cfg = .ok (inst, table2)) :
    getOrCreate table2 id cfg = .ok (inst, table2) ∧
    ∀ cfg2 : SplitConfig, cfg2 ≠ cfg →
      getOrCreate table2 id cfg2 = .error .ConflictingOperationInProgress := by
  cases hfind : table.find? (fun inst => inst.id == id) with
  | some inst0 =>
      by_cases hcfg : inst0.config = cfg
      · have h2 : inst0 = inst ∧ table = table2 := by
          have h3 := h
          simp only [getOrCreate, hfind] at h3
          rw [if_pos hcfg] at h3
          simpa only [Except.ok.injEq, Prod.mk.injEq] using h3
        obtain ⟨rfl, rfl⟩ := h2
        constructor
        · simp only [getOrCreate, hfind]
          rw [if_pos hcfg]
        · intro cfg2 hne
          simp only [getOrCreate, hfind]
          rw [if_neg fun hh => hne (hh.symm.trans hcfg)]
      · have h3 := h
        simp only [getOrCreate, hfind] at h3
        rw [if_neg hcfg] at h3
        simp at h3
  | none =>
      have h2 : (⟨id, cfg⟩ : DonorInstance) = inst ∧
          (⟨id, cfg⟩ : DonorInstance) :: table = table2 := by
        have h3 := h
        simp only [getOrCreate, hfind] at h3
        simpa only [Except.ok.injEq, Prod.mk.injEq] using h3
      obtain ⟨rfl, rfl⟩ := h2
      have hfind2 : ((⟨id, cfg⟩ : DonorInstance) :: table).find?
          (fun inst => inst.id == id) = some ⟨id, cfg⟩ := by
        simp [List.find?]
      constructor
      · simp only [getOrCreate, hfind2]
        simp
      · intro cfg2 hne
        simp only [getOrCreate, hfind2]
        rw [if_neg fun hh => hne (hh.symm)]

/-- Concrete run of the C9 theorem: create id 7 in an empty registry,
call again with the same configuration and with a different one. -/
theorem getOrCreate_idempotent_witness :
    getOrCreate [⟨7, testSplitConfig⟩] 7 testSplitConfig =
      .ok (⟨7, testSplitConfig⟩, [⟨7, testSplitConfig⟩]) ∧
    getOrCreate [⟨7, testSplitConfig⟩] 7 testSplitConfigOther =
      .error .ConflictingOperationInProgress := by
  have h := getOrCreate_idempotent [] 7 testSplitConfig ⟨7, testSplitConfig⟩
    [⟨7, testSplitConfig⟩] (by decide)
  exact ⟨h.1, h.2 testSplitConfigOther (by decide)⟩

end ShardSplit
